import Mathlib

/-!
Shallow embedding of the `onnxer` Go bindings for ONNX Runtime
(package `onnxruntime`), together with theorems checking the
natural-language specification of the package against the code.

Machine integers are modelled as `Nat` with explicit reduction modulo
`2^16` / `2^32` at the points where the Go code converts or can wrap.
Native ONNX Runtime calls (through the dispatch table) are modelled as
oracle parameters: a function supplied to the Lean model standing for
the outcome of the native call.
-/

namespace Onnxer

/-! ## float16.go — Float16 and BFloat16 conversions

A `float32` is represented by its IEEE 754 bit pattern (a `Nat` below
`2^32`); a `Float16` / `BFloat16` by its 16-bit container (a `Nat` below
`2^16`).  `math.Float32bits` / `math.Float32frombits` are then the
identity, and the Go arithmetic on `uint32` is `Nat` arithmetic reduced
modulo `2^32` where it could wrap. -/

/-- NewFloat16 converts a float32 (given as its bit pattern) to Float16.
Direct translation of `NewFloat16` in `float16.go`: the Go `int`
exponent is an `Int` here, and the final conversion `Float16(x)` of a
`uint32` to the 16-bit container is `% 65536`. -/
def NewFloat16 (bits : Nat) : Nat :=
  let sign := (bits >>> 16) &&& 0x8000
  let exp : Int := (((bits >>> 23) &&& 0xFF : Nat) : Int) - 127
  let frac := bits &&& 0x7FFFFF
  if exp = 128 then
    -- Inf or NaN
    if frac = 0 then
      (sign ||| 0x7C00) % 65536
    else
      (sign ||| 0x7C00 ||| (frac >>> 13) ||| 1) % 65536
  else if exp > 15 then
    -- Overflow -> infinity
    (sign ||| 0x7C00) % 65536
  else if exp > -15 then
    -- Normal range
    (sign ||| ((exp + 15).toNat <<< 10) ||| (frac >>> 13)) % 65536
  else if exp ≥ -24 then
    -- Subnormal
    let frac := frac ||| 0x800000
    let shift := (-14 - exp).toNat
    (sign ||| (frac >>> (shift + 13))) % 65536
  else
    -- Underflow -> zero
    sign % 65536

/-- The subnormal normalisation loop of `Float16.Float32` in
`float16.go`: `for frac&0x400 == 0 { frac <<= 1; exp-- }` on `uint32`
values, written with explicit fuel.  The Go loop is only entered with
`0 < frac < 0x400`, so it performs at most 10 iterations; any fuel of
at least 10 makes this model agree with the loop. -/
def normalizeSubnormal : Nat → Nat → Nat → Nat × Nat
  | 0, exp, frac => (exp, frac)
  | fuel + 1, exp, frac =>
    if frac &&& 0x400 = 0 then
      normalizeSubnormal fuel ((exp + 4294967295) % 4294967296) ((frac <<< 1) % 4294967296)
    else
      (exp, frac)

/-- Float32 converts a Float16 (16-bit container) to a float32 bit
pattern.  Direct translation of `Float16.Float32` in `float16.go`; all
`uint32` arithmetic is reduced modulo `2^32`. -/
def Float16.Float32 (f : Nat) : Nat :=
  let sign := ((f &&& 0x8000) <<< 16) % 4294967296
  let exp := (f >>> 10) &&& 0x1F
  let frac := f &&& 0x3FF
  if exp = 0 then
    if frac = 0 then
      -- Zero
      sign
    else
      -- Subnormal -> normalize
      let p := normalizeSubnormal 32 exp frac
      let exp := (p.1 + 1) % 4294967296
      let frac := p.2 &&& 0x3FF
      (sign ||| (((exp + 127 - 15) % 4294967296) <<< 23) % 4294967296 ||| (frac <<< 13)) % 4294967296
  else if exp = 31 then
    -- Inf/NaN
    (sign ||| 0x7F800000 ||| (frac <<< 13)) % 4294967296
  else
    -- Normal
    (sign ||| (((exp + 127 - 15) <<< 23) % 4294967296) ||| (frac <<< 13)) % 4294967296

/-- NewBFloat16 converts a float32 bit pattern to BFloat16 by truncating
the lower 16 bits (`float16.go`). -/
def NewBFloat16 (bits : Nat) : Nat :=
  (bits >>> 16) % 65536

/-- Float32 converts a BFloat16 container to a float32 bit pattern
(`float16.go`). -/
def BFloat16.Float32 (f : Nat) : Nat :=
  (f <<< 16) % 4294967296

/-- A float32 bit pattern is a NaN: maximal exponent and non-zero
fraction. -/
def isNaN32 (bits : Nat) : Bool :=
  (bits >>> 23) &&& 0xFF = 0xFF && bits &&& 0x7FFFFF ≠ 0

/-- A Float16 bit pattern is a NaN: maximal exponent and non-zero
fraction. -/
def isNaN16 (h : Nat) : Bool :=
  (h >>> 10) &&& 0x1F = 31 && h &&& 0x3FF ≠ 0

/-! Exhaustive checking combinator used to settle the subnormal range of
the Float16 round trip by computation.  `checkPow f d lo` checks
`f (lo + i)` for every `i < 2 ^ d`; it is written with `Nat.rec` and a
balanced split so kernel reduction stays shallow. -/

/-- checkPow f d lo is true when f holds on the whole range
`[lo, lo + 2 ^ d)`. -/
def checkPow (f : Nat → Bool) (d : Nat) (lo : Nat) : Bool :=
  Nat.rec (motive := fun _ => Nat → Bool) (fun l => f l)
    (fun d ih l => ih l && ih (l + 2 ^ d)) d lo

theorem checkPow_zero (f : Nat → Bool) (lo : Nat) : checkPow f 0 lo = f lo := rfl

theorem checkPow_succ (f : Nat → Bool) (d lo : Nat) :
    checkPow f (d + 1) lo = (checkPow f d lo && checkPow f d (lo + 2 ^ d)) := rfl

/-- Soundness of `checkPow`: a true check covers every point of the
range. -/
theorem checkPow_spec (f : Nat → Bool) :
    ∀ d lo, checkPow f d lo = true → ∀ i, i < 2 ^ d → f (lo + i) = true := by
  intro d
  induction d with
  | zero =>
    intro lo hc i hi
    interval_cases i
    simpa [checkPow_zero] using hc
  | succ m ih =>
    intro lo hc i hi
    rw [checkPow_succ, Bool.and_eq_true] at hc
    by_cases h : i < 2 ^ m
    · exact ih lo hc.1 i h
    · have h2 : i - 2 ^ m < 2 ^ m := by
        have := Nat.pow_succ 2 m
        omega

      have h3 := ih (lo + 2 ^ m) hc.2 (i - 2 ^ m) h2
      have he : lo + 2 ^ m + (i - 2 ^ m) = lo + i := by omega
      rwa [he] at h3

/-- The Float16 round trip as a boolean check at one bit pattern. -/
def rtF16 (h : Nat) : Bool :=
  NewFloat16 (Float16.Float32 h) == h

/-- Computed: the round trip holds on `[0, 0x400)` — positive zero and
all positive subnormal Float16 patterns. -/
theorem rtF16_subnormal_pos : checkPow rtF16 10 0 = true := by decide!

/-- Computed: the round trip holds on `[0x8000, 0x8400)` — negative zero
and all negative subnormal Float16 patterns. -/
theorem rtF16_subnormal_neg : checkPow rtF16 10 32768 = true := by decide!

/-! Bit-twiddling helper lemmas bridging `&&&` / `|||` / shifts and
ordinary arithmetic, used for the symbolic part of the round-trip
proof. -/

theorem and_mask1023 (x : Nat) : x &&& 1023 = x % 1024 := by
  have h := Nat.and_pow_two_sub_one_eq_mod x 10
  norm_num at h
  exact h

theorem and_mask31 (x : Nat) : x &&& 31 = x % 32 := by
  have h := Nat.and_pow_two_sub_one_eq_mod x 5
  norm_num at h
  exact h

theorem and_mask255 (x : Nat) : x &&& 255 = x % 256 := by
  have h := Nat.and_pow_two_sub_one_eq_mod x 8
  norm_num at h
  exact h

theorem and_mask8388607 (x : Nat) : x &&& 8388607 = x % 8388608 := by
  have h := Nat.and_pow_two_sub_one_eq_mod x 23
  norm_num at h
  exact h

theorem and_bit15 (x : Nat) : x &&& 32768 = x / 32768 % 2 * 32768 := by
  have h := Nat.and_two_pow x 15
  rw [Nat.testBit_to_div_mod] at h
  norm_num at h
  rcases Nat.mod_two_eq_zero_or_one (x / 32768) with h2 | h2 <;>
    rw [h2] at h ⊢ <;> simp at h ⊢ <;> omega

theorem or_mult (k x y : Nat) (hk : ∃ i, k = 2 ^ i) (hy : y < k) :
    x * k ||| y = x * k + y := by
  obtain ⟨i, rfl⟩ := hk
  rw [Nat.mul_comm]
  exact (Nat.mul_add_lt_is_or hy x).symm

/-- On a normal Float16 pattern `s·2^15 + e·2^10 + m` with
`1 ≤ e ≤ 30`, `Float16.Float32` produces the float32 pattern
`s·2^31 + (e+112)·2^23 + m·2^13`. -/
theorem f32_of_normal (s e m : Nat) (hs : s < 2) (he1 : 1 ≤ e) (he2 : e ≤ 30) (hm : m < 1024) :
    Float16.Float32 (s * 32768 + e * 1024 + m)
      = s * 2147483648 + (e + 112) * 8388608 + m * 8192 := by
  have h15 : (s * 32768 + e * 1024 + m) &&& 32768 = s * 32768 := by
    rw [and_bit15]; omega
  have h10 : ((s * 32768 + e * 1024 + m) >>> 10) &&& 31 = e := by
    rw [Nat.shiftRight_eq_div_pow, and_mask31]
    norm_num
    omega
  have hfr : (s * 32768 + e * 1024 + m) &&& 1023 = m := by
    rw [and_mask1023]; omega
  have he0 : ¬ (e = 0) := by omega
  have he31 : ¬ (e = 31) := by omega
  simp only [Float16.Float32, h15, h10, hfr, if_neg he0, if_neg he31]
  rw [Nat.shiftLeft_eq, Nat.shiftLeft_eq, Nat.shiftLeft_eq]
  norm_num
  rw [Nat.mod_eq_of_lt (by omega : s * 32768 * 65536 < 4294967296)]
  rw [show e + 127 - 15 = e + 112 from by omega]
  rw [Nat.mod_eq_of_lt (by omega : (e + 112) * 8388608 < 4294967296)]
  rw [show s * 32768 * 65536 = s * 2147483648 from by ring]
  rw [or_mult 2147483648 s ((e + 112) * 8388608) (Exists.intro 31 (by norm_num)) (by omega)]
  rw [show s * 2147483648 + (e + 112) * 8388608 = (s * 256 + (e + 112)) * 8388608 from by ring]
  rw [or_mult 8388608 (s * 256 + (e + 112)) (m * 8192) (Exists.intro 23 (by norm_num)) (by omega)]
  omega

/-- On the float32 pattern of a normal Float16 value, `NewFloat16`
recovers the original 16-bit pattern. -/
theorem nf16_of_normal (s e m : Nat) (hs : s < 2) (he1 : 1 ≤ e) (he2 : e ≤ 30) (hm : m < 1024) :
    NewFloat16 (s * 2147483648 + (e + 112) * 8388608 + m * 8192)
      = s * 32768 + e * 1024 + m := by
  have b16 : ((s * 2147483648 + (e + 112) * 8388608 + m * 8192) >>> 16) &&& 32768
      = s * 32768 := by
    rw [Nat.shiftRight_eq_div_pow, and_bit15]
    norm_num
    omega
  have b23 : ((s * 2147483648 + (e + 112) * 8388608 + m * 8192) >>> 23) &&& 255
      = e + 112 := by
    rw [Nat.shiftRight_eq_div_pow, and_mask255]
    norm_num
    omega
  have bfr : (s * 2147483648 + (e + 112) * 8388608 + m * 8192) &&& 8388607
      = m * 8192 := by
    rw [and_mask8388607]
    omega
  have hc1 : ¬ (((e + 112 : Nat) : Int) - 127 = 128) := by omega
  have hc2 : ¬ (((e + 112 : Nat) : Int) - 127 > 15) := by omega
  have hc3 : ((e + 112 : Nat) : Int) - 127 > -15 := by omega
  have ht : (((e + 112 : Nat) : Int) - 127 + 15).toNat = e := by omega
  simp only [NewFloat16, b16, b23, bfr, if_neg hc1, if_neg hc2, if_pos hc3, ht]
  rw [Nat.shiftLeft_eq, Nat.shiftRight_eq_div_pow]
  norm_num
  rw [or_mult 32768 s (e * 1024) (Exists.intro 15 (by norm_num)) (by omega)]
  rw [show s * 32768 + e * 1024 = (s * 32 + e) * 1024 from by ring]
  rw [or_mult 1024 (s * 32 + e) m (Exists.intro 10 (by norm_num)) (by omega)]
  omega

/-- The Float16 round trip from the 16-bit side holds on every non-NaN
pattern: computed on the subnormal ranges, symbolic on the normal range,
and by the two explicit infinities. -/
theorem rtF16_all (h : Nat) (hlt : h < 65536) (hnan : isNaN16 h = false) :
    NewFloat16 (Float16.Float32 h) = h := by
  by_cases he0 : h / 1024 % 32 = 0
  · by_cases hs : h < 32768
    · have hsmall : h < 1024 := by omega
      have := checkPow_spec rtF16 10 0 rtF16_subnormal_pos h (by norm_num; omega)
      rw [Nat.zero_add] at this
      simpa [rtF16] using this
    · have hrange : h - 32768 < 1024 := by omega
      have := checkPow_spec rtF16 10 32768 rtF16_subnormal_neg (h - 32768) (by norm_num; omega)
      rw [show 32768 + (h - 32768) = h from by omega] at this
      simpa [rtF16] using this
  · by_cases he31 : h / 1024 % 32 = 31
    · have hm0 : h % 1024 = 0 := by
        by_contra hm
        have : isNaN16 h = true := by
          simp only [isNaN16, Nat.shiftRight_eq_div_pow, and_mask31, and_mask1023]
          norm_num
          exact ⟨he31, hm⟩
        rw [this] at hnan
        exact absurd hnan (by simp)
      have : h = 31744 ∨ h = 64512 := by omega
      rcases this with rfl | rfl
      · decide
      · decide
    · have hd : h = h / 32768 * 32768 + h / 1024 % 32 * 1024 + h % 1024 := by omega
      rw [hd]
      rw [f32_of_normal (h / 32768) (h / 1024 % 32) (h % 1024) (by omega) (by omega) (by omega) (by omega)]
      exact nf16_of_normal (h / 32768) (h / 1024 % 32) (h % 1024) (by omega) (by omega) (by omega) (by omega)

/-- C9: NewFloat16 followed by Float16.Float32 is the identity on the
float32 inputs 1.0 (bits 0x3F800000), 0.5 (bits 0x3F000000) and 65504.0
(bits 0x477FE000); it maps 100000.0 (bits 0x47C35000) to positive
infinity (bits 0x7F800000), maps 1e-20 (bits 0x1E3CE508, the correctly
rounded float32 of that decimal) to positive zero (bits 0), and maps the
quiet NaN 0x7FC00000 to a NaN. -/
theorem claim_C9_float16_conversion_examples :
    Float16.Float32 (NewFloat16 0x3F800000) = 0x3F800000 ∧
    Float16.Float32 (NewFloat16 0x3F000000) = 0x3F000000 ∧
    Float16.Float32 (NewFloat16 0x477FE000) = 0x477FE000 ∧
    Float16.Float32 (NewFloat16 0x47C35000) = 0x7F800000 ∧
    Float16.Float32 (NewFloat16 0x1E3CE508) = 0 ∧
    isNaN32 0x7FC00000 = true ∧
    isNaN32 (Float16.Float32 (NewFloat16 0x7FC00000)) = true := by
  decide

/-- C10: round trips that start from the 16-bit side are exact.  For
every Float16 bit pattern that is not a NaN — including both zeros, all
subnormals and both infinities — `NewFloat16 (h.Float32())` returns the
pattern unchanged, and for every BFloat16 pattern (NaNs included)
`NewBFloat16 (b.Float32())` returns the pattern unchanged. -/
theorem claim_C10_sixteen_bit_roundtrips_exact :
    (∀ h : Nat, h < 65536 → isNaN16 h = false →
      NewFloat16 (Float16.Float32 h) = h) ∧
    (∀ b : Nat, b < 65536 → NewBFloat16 (BFloat16.Float32 b) = b) := by
  constructor
  · exact rtF16_all
  · intro b hb
    unfold NewBFloat16 BFloat16.Float32
    rw [Nat.shiftLeft_eq, Nat.shiftRight_eq_div_pow]
    norm_num
    omega

/-- Witness for C10 at the positive infinity pattern 0x7C00 and the
all-ones BFloat16 pattern 0xFFFF. -/
theorem claim_C10_sixteen_bit_roundtrips_exact_witness :
    (31744 < 65536 ∧ isNaN16 31744 = false ∧
      NewFloat16 (Float16.Float32 31744) = 31744) ∧
    (65535 < 65536 ∧ NewBFloat16 (BFloat16.Float32 65535) = 65535) :=
  ⟨⟨by decide, by decide,
      claim_C10_sixteen_bit_roundtrips_exact.1 31744 (by decide) (by decide)⟩,
    ⟨by decide, claim_C10_sixteen_bit_roundtrips_exact.2 65535 (by decide)⟩⟩

/-! ## Error model

The spec classifies the package errors into kinds (section 7 of the
spec); in the Go code these appear as the sentinel `ErrSessionClosed`,
the pool's "session pool is closed" error, the formatted
"element type mismatch: expected %d, got %d" error, `RuntimeError`
(native code and message), context cancellation, and other formatted
messages.  The inductive below carries one constructor per kind. -/

inductive OnnxError
  | sessionClosed
  | poolClosed
  | typeMismatch (expected got : Nat)
  | ctxCanceled
  | native (code : Nat) (msg : String)
  | message (msg : String)
deriving DecidableEq, Repr

/-! ## Tensor element types and typed extraction (value.go) — C5 -/

/-- ONNXTensorElementDataType numeric codes, as declared in
internal/api/v23/funcs.go. -/
def ONNXTensorElementDataTypeUndefined : Nat := 0

def ONNXTensorElementDataTypeFloat : Nat := 1

def ONNXTensorElementDataTypeUint8 : Nat := 2

def ONNXTensorElementDataTypeInt8 : Nat := 3

def ONNXTensorElementDataTypeUint16 : Nat := 4

def ONNXTensorElementDataTypeInt16 : Nat := 5

def ONNXTensorElementDataTypeInt32 : Nat := 6

def ONNXTensorElementDataTypeInt64 : Nat := 7

def ONNXTensorElementDataTypeString : Nat := 8

def ONNXTensorElementDataTypeBool : Nat := 9

def ONNXTensorElementDataTypeFloat16 : Nat := 10

def ONNXTensorElementDataTypeDouble : Nat := 11

def ONNXTensorElementDataTypeUint32 : Nat := 12

def ONNXTensorElementDataTypeUint64 : Nat := 13

/-- The bfloat16 code.  Its Go re-export constant is declared in a file
not among the sources; the value 16 is the ONNX C API enum value for
ONNX_TENSOR_ELEMENT_DATA_TYPE_BFLOAT16, distinct from all codes
above. -/
def ONNXTensorElementDataTypeBFloat16 : Nat := 16

/-- The Go generic instantiations of the `TensorData` constraint that
the element-type switches of value.go recognise: every numeric type,
bool, Float16 and BFloat16. -/
inductive TensorDataType
  | goFloat32
  | goFloat64
  | goInt8
  | goInt16
  | goInt32
  | goInt64
  | goUint8
  | goFloat16
  | goBFloat16
  | goUint16
  | goUint32
  | goUint64
  | goBool
deriving DecidableEq, Repr, Fintype

/-- The element-type switch occurring (with the same cases) in
NewTensorValue, GetTensorDataUnsafe and GetTensorData in value.go. -/
def expectedElementType : TensorDataType → Nat
  | .goFloat32 => ONNXTensorElementDataTypeFloat
  | .goFloat64 => ONNXTensorElementDataTypeDouble
  | .goInt8 => ONNXTensorElementDataTypeInt8
  | .goInt16 => ONNXTensorElementDataTypeInt16
  | .goInt32 => ONNXTensorElementDataTypeInt32
  | .goInt64 => ONNXTensorElementDataTypeInt64
  | .goUint8 => ONNXTensorElementDataTypeUint8
  | .goFloat16 => ONNXTensorElementDataTypeFloat16
  | .goBFloat16 => ONNXTensorElementDataTypeBFloat16
  | .goUint16 => ONNXTensorElementDataTypeUint16
  | .goUint32 => ONNXTensorElementDataTypeUint32
  | .goUint64 => ONNXTensorElementDataTypeUint64
  | .goBool => ONNXTensorElementDataTypeBool

/-- A tensor Value as seen by the extraction functions: the element type
reported by its native type-and-shape info, the shape, and the raw
element buffer (elements abstracted as machine words). -/
structure ValueModel where
  elemType : Nat
  shape : List Int
  data : List Nat
deriving DecidableEq, Repr

/-- GetTensorData from value.go: reads shape and element type, fails
with the "element type mismatch: expected %d, got %d" error when the
native element type differs from the one for T, and otherwise returns a
copy of the buffer together with the shape. -/
def GetTensorData (T : TensorDataType) (v : ValueModel) :
    Except OnnxError (List Nat × List Int) :=
  let shape := v.shape
  let elemType := v.elemType
  if elemType ≠ expectedElementType T then
    .error (.typeMismatch (expectedElementType T) elemType)
  else
    .ok (v.data, shape)

/-- GetTensorDataUnsafe from value.go: identical checks; the result is
the borrowed native buffer rather than a copy, which the abstraction of
buffers as lists does not distinguish. -/
def GetTensorDataUnsafe (T : TensorDataType) (v : ValueModel) :
    Except OnnxError (List Nat × List Int) :=
  let shape := v.shape
  let elemType := v.elemType
  if elemType ≠ expectedElementType T then
    .error (.typeMismatch (expectedElementType T) elemType)
  else
    .ok (v.data, shape)

/-- NewTensorValue from value.go, restricted to what C5 needs: the
created native tensor records the element type of T via the same
switch. -/
def NewTensorValue (T : TensorDataType) (data : List Nat) (shape : List Int) : ValueModel :=
  { elemType := expectedElementType T, shape := shape, data := data }

/-- The element-type codes of the thirteen supported Go types are
pairwise distinct. -/
theorem expectedElementType_injective :
    ∀ T U : TensorDataType, T ≠ U → expectedElementType T ≠ expectedElementType U := by
  decide

/-- C5: extracting with a generic element type U different from the
tensor's actual element type T fails, in both GetTensorData and
GetTensorDataUnsafe, with the type-mismatch error carrying the expected
and actual codes. -/
theorem claim_C5_type_mismatch_detection (T U : TensorDataType) (hTU : T ≠ U)
    (v : ValueModel) (hv : v.elemType = expectedElementType T) :
    GetTensorData U v
        = .error (.typeMismatch (expectedElementType U) (expectedElementType T)) ∧
    GetTensorDataUnsafe U v
        = .error (.typeMismatch (expectedElementType U) (expectedElementType T)) := by
  have hne : expectedElementType T ≠ expectedElementType U :=
    expectedElementType_injective T U hTU
  constructor
  · simp [GetTensorData, hv, hne]
  · simp [GetTensorDataUnsafe, hv, hne]

/-- Witness for C5: a float32 tensor read as int64 fails with the
type-mismatch error in both extractors. -/
theorem claim_C5_type_mismatch_detection_witness :
    GetTensorData .goInt64 (NewTensorValue .goFloat32 [0] [1])
        = .error (.typeMismatch 7 1) ∧
    GetTensorDataUnsafe .goInt64 (NewTensorValue .goFloat32 [0] [1])
        = .error (.typeMismatch 7 1) :=
  claim_C5_type_mismatch_detection .goFloat32 .goInt64 (by decide)
    (NewTensorValue .goFloat32 [0] [1]) rfl

/-! ## Close idempotence — C8

Every handle wrapper's Close follows the same guarded pattern, e.g.
Session.Close in the session source, Env.Close, LoraAdapter.Close,
PrepackedWeightsContainer.Close:

  if x.ptr != 0 && x.runtime != nil && x.runtime.apiFuncs != nil {
      x.runtime.apiFuncs.ReleaseX(x.ptr)
      x.ptr = 0
  }

Value.Close (value.go) chains two such guarded releases (value handle
and cached type-and-shape info); SessionPool.Close (pool.go) is guarded
by an atomic compare-and-swap on the closed flag.  Each close model
below returns the new state together with the number of native release
calls it performed. -/

/-- State of a single-handle wrapper: the native handle (0 once
released) and whether the runtime and dispatch-table references are
non-nil. -/
structure HandleState where
  ptr : Nat
  runtimeOk : Bool
deriving DecidableEq, Repr

/-- One Close call on a single-handle wrapper (Session, Env,
LoraAdapter, PrepackedWeightsContainer, and the other guarded
wrappers). -/
def closeHandle (h : HandleState) : HandleState × Nat :=
  if h.ptr ≠ 0 ∧ h.runtimeOk = true then
    ({ h with ptr := 0 }, 1)
  else
    (h, 0)

/-- State of a Value: native value handle, lazily cached
tensor-type-and-shape info handle, runtime reference. -/
structure ValueState where
  ptr : Nat
  infoPtr : Nat
  runtimeOk : Bool
deriving DecidableEq, Repr

/-- releaseValue from value.go. -/
def releaseValue (v : ValueState) : ValueState × Nat :=
  if v.ptr ≠ 0 ∧ v.runtimeOk = true then
    ({ v with ptr := 0 }, 1)
  else
    (v, 0)

/-- releaseInfo from value.go. -/
def releaseInfo (v : ValueState) : ValueState × Nat :=
  if v.infoPtr ≠ 0 ∧ v.runtimeOk = true then
    ({ v with infoPtr := 0 }, 1)
  else
    (v, 0)

/-- Value.Close from value.go: releaseValue then releaseInfo. -/
def closeValue (v : ValueState) : ValueState × Nat :=
  let p1 := releaseValue v
  let p2 := releaseInfo p1.1
  (p2.1, p1.2 + p2.2)

/-- Pool state bits read and written by SessionPool.Close: the closed
flag, the number of sessions waiting on the channel, and the prepacked
weights container with its ownership flag. -/
structure PoolCloseState where
  closed : Bool
  queued : Nat
  ownsPrepacked : Bool
  prepackedPtr : Nat
deriving DecidableEq, Repr

/-- SessionPool.Close from pool.go: the compare-and-swap on the closed
flag makes the second and later calls return immediately; the first
call drains the channel closing every queued session and, when the pool
owns the prepacked weights container, releases it and nils the
reference. -/
def closePool (p : PoolCloseState) : PoolCloseState × Nat :=
  if p.closed then
    (p, 0)
  else
    ({ closed := true
       queued := 0
       ownsPrepacked := p.ownsPrepacked
       prepackedPtr :=
         if p.ownsPrepacked ∧ p.prepackedPtr ≠ 0 then 0 else p.prepackedPtr },
      p.queued + (if p.ownsPrepacked ∧ p.prepackedPtr ≠ 0 then 1 else 0))

/-- C8: for every wrapper kind, a second Close after a first Close
performs no native release call and leaves the state unchanged (the
models are total functions, so no abort is possible). -/
theorem claim_C8_close_idempotent :
    (∀ v : ValueState, closeValue (closeValue v).1 = ((closeValue v).1, 0)) ∧
    (∀ h : HandleState, closeHandle (closeHandle h).1 = ((closeHandle h).1, 0)) ∧
    (∀ p : PoolCloseState, closePool (closePool p).1 = ((closePool p).1, 0)) := by
  refine ⟨fun v => ?_, fun h => ?_, fun p => ?_⟩
  · rcases v with ⟨ptr, infoPtr, rok⟩
    cases rok <;> by_cases h1 : ptr = 0 <;> by_cases h2 : infoPtr = 0 <;>
      simp [closeValue, releaseValue, releaseInfo, h1, h2]
  · rcases h with ⟨ptr, rok⟩
    cases rok <;> by_cases h1 : ptr = 0 <;> simp [closeHandle, h1]
  · rcases p with ⟨closed, queued, owns, pp⟩
    cases closed <;> simp [closePool]

/-! ## Session.Run — C1, C2, C6

The session source keeps the native handle plus the cached input and
output name lists in model declaration order.  Input values are
abstracted as native value pointers (`Nat`); the native Run call of the
dispatch table is an oracle parameter receiving exactly the data the
code passes it: the (name, value) slot per declared input and the
requested output names. -/

/-- Session state: native handle (0 once closed) and the name lists
cached by initializeMetadata in model declaration order. -/
structure SessionState where
  ptr : Nat
  inputNames : List String
  outputNames : List String

/-- A loaded LoRA adapter (native handle). -/
structure LoraAdapter where
  ptr : Nat
deriving DecidableEq, Repr

/-- runConfig assembled by Session.Run from the RunOption functional
options. -/
structure RunConfig where
  outputNames : List String
  loraAdapters : List LoraAdapter
  runTag : String

/-- WithOutputNames functional option. -/
def WithOutputNames (names : List String) : RunConfig → RunConfig :=
  fun c => { c with outputNames := names }

/-- WithRunTag functional option. -/
def WithRunTag (tag : String) : RunConfig → RunConfig :=
  fun c => { c with runTag := tag }

/-- WithLoraAdapters functional option (lora source file): replaces the
config's adapter list. -/
def WithLoraAdapters (adapters : List LoraAdapter) : RunConfig → RunConfig :=
  fun c => { c with loraAdapters := adapters }

/-- Session.Run starts from the default config — all declared outputs,
no adapters, no tag — and applies each option in order. -/
def applyRunOptions (s : SessionState) (opts : List (RunConfig → RunConfig)) : RunConfig :=
  opts.foldl (fun c o => o c) { outputNames := s.outputNames, loraAdapters := [], runTag := "" }

/-- The input-marshalling loop of Session.Run: for each session input
name in declaration order, the map entry when present, an empty slot —
empty name and nil value — when absent.  The source fills two parallel
slices (inputNames, inputValues); the model pairs them. -/
def buildInputSlots (inputNames : List String) (inputs : String → Option Nat) :
    List (String × Option Nat) :=
  inputNames.map fun n =>
    match inputs n with
    | some v => (n, some v)
    | none => ("", none)

/-- Session.Run from the session source: closed-session guard, option
folding, input marshalling, the native call (oracle), and wrapping of
the output slots into a name-to-value map in requested-output order.
`wrap` stands for runtime.newValueFromPtr. -/
def SessionState.Run (s : SessionState) (inputs : String → Option Nat)
    (opts : List (RunConfig → RunConfig))
    (nativeRun : List (String × Option Nat) → List String → Except OnnxError (List Nat))
    (wrap : Nat → Nat) : Except OnnxError (List (String × Nat)) :=
  if s.ptr = 0 then
    .error .sessionClosed
  else
    let config := applyRunOptions s opts
    let slots := buildInputSlots s.inputNames inputs
    match nativeRun slots config.outputNames with
    | .error e => .error e
    | .ok outs => .ok (config.outputNames.zip (outs.map wrap))

/-- C1: on an open session, (i) the slots passed to the native call
follow model declaration order, taking the map entry for a declared
name when present and the empty slot when absent; (ii) map keys that
are not session input names are ignored — two maps agreeing on the
declared input names produce identical Run results; (iii) on native
success the result maps each requested output name, in declared-subset
order (all declared outputs when no option is given, the caller subset
under WithOutputNames), to the wrapped output value at that
position. -/
theorem claim_C1_run_io_mapping (s : SessionState) (inputs inputs2 : String → Option Nat)
    (opts : List (RunConfig → RunConfig))
    (nativeRun : List (String × Option Nat) → List String → Except OnnxError (List Nat))
    (wrap : Nat → Nat) (outs : List Nat) (names : List String)
    (hopen : s.ptr ≠ 0) :
    ((buildInputSlots s.inputNames inputs).length = s.inputNames.length) ∧
    (∀ i (h1 : i < (buildInputSlots s.inputNames inputs).length)
        (h2 : i < s.inputNames.length),
      (buildInputSlots s.inputNames inputs).get ⟨i, h1⟩ =
        match inputs (s.inputNames.get ⟨i, h2⟩) with
        | some v => (s.inputNames.get ⟨i, h2⟩, some v)
        | none => ("", none)) ∧
    ((∀ n ∈ s.inputNames, inputs n = inputs2 n) →
      SessionState.Run s inputs opts nativeRun wrap
        = SessionState.Run s inputs2 opts nativeRun wrap) ∧
    (nativeRun (buildInputSlots s.inputNames inputs)
        (applyRunOptions s opts).outputNames = .ok outs →
      SessionState.Run s inputs opts nativeRun wrap
        = .ok ((applyRunOptions s opts).outputNames.zip (outs.map wrap))) ∧
    ((applyRunOptions s []).outputNames = s.outputNames) ∧
    ((applyRunOptions s [WithOutputNames names]).outputNames = names) := by
  refine ⟨by simp [buildInputSlots], fun i h1 h2 => ?_, fun hagree => ?_, fun hok => ?_,
    rfl, rfl⟩
  · simp [buildInputSlots]
  · have hslots : buildInputSlots s.inputNames inputs
        = buildInputSlots s.inputNames inputs2 := by
      unfold buildInputSlots
      exact List.map_congr_left fun n hn => by rw [hagree n hn]
    unfold SessionState.Run
    rw [hslots]
  · unfold SessionState.Run
    rw [if_neg hopen]
    simp only [hok]

/-- Witness for C1 on a two-input session where the map carries the
first input and an unknown key. -/
theorem claim_C1_run_io_mapping_witness :
    buildInputSlots ["a", "b"]
        (fun n => if n = "a" then some 5 else if n = "zzz" then some 9 else none)
      = [("a", some 5), ("", none)] ∧
    SessionState.Run ⟨1, ["a", "b"], ["out"]⟩
        (fun n => if n = "a" then some 5 else if n = "zzz" then some 9 else none)
        [] (fun _ _ => .ok [77]) (fun x => x + 1)
      = .ok [("out", 78)] := by
  have h := claim_C1_run_io_mapping ⟨1, ["a", "b"], ["out"]⟩
    (fun n => if n = "a" then some 5 else if n = "zzz" then some 9 else none)
    (fun n => if n = "a" then some 5 else if n = "zzz" then some 9 else none)
    [] (fun _ _ => .ok [77]) (fun x => x + 1) [77] [] (by decide)
  refine ⟨?_, ?_⟩
  · have h0 := h.2.1 0 (by simp [buildInputSlots]) (by simp)
    have h1 := h.2.1 1 (by simp [buildInputSlots]) (by simp)
    simp [buildInputSlots]
  · exact h.2.2.2.1 rfl

/-- A Go context as seen by Session.createRunOptions: whether the
context reference is non-nil is the `Option`; `doneObservable` is
whether its Done() channel is non-nil, i.e. the cancellation can
fire. -/
structure CtxModel where
  doneObservable : Bool
deriving DecidableEq, Repr

/-- The needsRunOpts condition of Session.createRunOptions:
`(ctx != nil && ctx.Done() != nil) || len(config.loraAdapters) > 0 ||
config.runTag != ""`. -/
def needsRunOpts (ctx : Option CtxModel) (config : RunConfig) : Bool :=
  (match ctx with
    | some c => c.doneObservable
    | none => false)
  || decide (config.loraAdapters.length > 0)
  || decide (config.runTag ≠ "")

/-- Session.createRunOptions: when needsRunOpts is false it returns the
null run-options pointer without touching the native API; otherwise it
calls the native CreateRunOptions, modelled as handing out the fresh
non-null handle `freshPtr`.  The Bool records whether the native
constructor was invoked (adapter attachment or tag setting may still
fail afterwards, in which case the object is released and the call
fails, but it was created). -/
def createRunOptions (ctx : Option CtxModel) (config : RunConfig) (freshPtr : Nat) :
    Nat × Bool :=
  if needsRunOpts ctx config then (freshPtr, true) else (0, false)

/-- C2: a native run-options object is created if and only if the
cancellation context can fire (non-nil context with non-nil Done
channel), at least one LoRA adapter was specified, or a non-empty run
tag was specified; otherwise the native Run call receives the null
run-options pointer. -/
theorem claim_C2_run_options_only_when_needed (ctx : Option CtxModel) (config : RunConfig)
    (freshPtr : Nat) :
    ((createRunOptions ctx config freshPtr).2 = true ↔
      ((∃ c, ctx = some c ∧ c.doneObservable = true) ∨
        config.loraAdapters ≠ [] ∨ config.runTag ≠ "")) ∧
    ((createRunOptions ctx config freshPtr).2 = false →
      (createRunOptions ctx config freshPtr).1 = 0) := by
  constructor
  · unfold createRunOptions needsRunOpts
    rcases ctx with _ | c
    · cases hl : config.loraAdapters <;> by_cases ht : config.runTag = "" <;> simp [hl, ht]
    · cases hd : c.doneObservable <;> cases hl : config.loraAdapters <;>
        by_cases ht : config.runTag = "" <;> simp [hd, hl, ht]
  · unfold createRunOptions
    cases hn : needsRunOpts ctx config <;> simp

/-- Witness for C2: with no context, no adapters and an empty tag the
native Run receives the null pointer. -/
theorem claim_C2_run_options_only_when_needed_witness :
    (createRunOptions none ⟨["out"], [], ""⟩ 7).2 = false ∧
    (createRunOptions none ⟨["out"], [], ""⟩ 7).1 = 0 :=
  ⟨rfl, (claim_C2_run_options_only_when_needed none ⟨["out"], [], ""⟩ 7).2 rfl⟩

/-! ### Operations on a closed session or closed pool — C6 -/

/-- A session operation body other than the closed-session guard,
abstracted as its outcome (getInputCount, getOutputCount, getInputName,
getOutputName, GetModelMetadata, EndProfiling, ProfilingStartTimeNs,
GetInputInfo, GetOutputInfo all start with the same guard). -/
def sessionOp (s : SessionState) {α : Type} (body : Except OnnxError α) :
    Except OnnxError α :=
  if s.ptr = 0 then .error .sessionClosed else body

/-- Pool state bits consulted by the guards of SessionPool.Run,
Warmup and HealthCheck. -/
structure PoolModel where
  closed : Bool
  size : Nat
deriving DecidableEq, Repr

/-- SessionPool.Run from pool.go up to the borrow: closed-pool guard,
then the context fast path, then the borrowed-session run abstracted as
its outcome. -/
def PoolModel.Run (p : PoolModel) (ctxErr : Option OnnxError)
    (body : Except OnnxError (List (String × Nat))) :
    Except OnnxError (List (String × Nat)) :=
  if p.closed then .error .poolClosed
  else
    match ctxErr with
    | some e => .error e
    | none => body

/-- SessionPool.Warmup: closed-pool guard, then one run per pool slot,
abstracted as the combined outcome. -/
def PoolModel.Warmup (p : PoolModel) (body : Except OnnxError Unit) :
    Except OnnxError Unit :=
  if p.closed then .error .poolClosed else body

/-- SessionPool.HealthCheck: closed-pool guard, then one run. -/
def PoolModel.HealthCheck (p : PoolModel) (body : Except OnnxError Unit) :
    Except OnnxError Unit :=
  if p.closed then .error .poolClosed else body

/-- C6: every guarded session operation invoked after the session was
closed (ptr zeroed) fails with the session-closed error, and Run,
Warmup and HealthCheck on a closed pool fail with the pool-closed
error. -/
theorem claim_C6_closed_wrappers_fail (s : SessionState) (p : PoolModel)
    (inputs : String → Option Nat) (opts : List (RunConfig → RunConfig))
    (nativeRun : List (String × Option Nat) → List String → Except OnnxError (List Nat))
    (wrap : Nat → Nat) (ctxErr : Option OnnxError)
    (countBody : Except OnnxError Nat) (nameBody : Except OnnxError String)
    (runBody : Except OnnxError (List (String × Nat))) (unitBody : Except OnnxError Unit)
    (hs : s.ptr = 0) (hp : p.closed = true) :
    SessionState.Run s inputs opts nativeRun wrap = .error .sessionClosed ∧
    sessionOp s countBody = .error .sessionClosed ∧
    sessionOp s nameBody = .error .sessionClosed ∧
    PoolModel.Run p ctxErr runBody = .error .poolClosed ∧
    PoolModel.Warmup p unitBody = .error .poolClosed ∧
    PoolModel.HealthCheck p unitBody = .error .poolClosed := by
  refine ⟨?_, ?_, ?_, ?_, ?_, ?_⟩ <;>
    simp [SessionState.Run, sessionOp, PoolModel.Run, PoolModel.Warmup,
      PoolModel.HealthCheck, hs, hp]

/-- Witness for C6 on a freshly closed session and pool. -/
theorem claim_C6_closed_wrappers_fail_witness :
    SessionState.Run ⟨0, ["a"], ["out"]⟩ (fun _ => none) [] (fun _ _ => .ok [])
        (fun x => x) = .error .sessionClosed ∧
    sessionOp ⟨0, ["a"], ["out"]⟩ (.ok 1) = .error .sessionClosed ∧
    sessionOp ⟨0, ["a"], ["out"]⟩ (.ok "n") = .error .sessionClosed ∧
    PoolModel.Run ⟨true, 2⟩ none (.ok []) = .error .poolClosed ∧
    PoolModel.Warmup ⟨true, 2⟩ (.ok ()) = .error .poolClosed ∧
    PoolModel.HealthCheck ⟨true, 2⟩ (.ok ()) = .error .poolClosed :=
  claim_C6_closed_wrappers_fail ⟨0, ["a"], ["out"]⟩ ⟨true, 2⟩ (fun _ => none) []
    (fun _ _ => .ok []) (fun x => x) none (.ok 1) (.ok "n") (.ok []) (.ok ()) rfl rfl

/-! ## Pool session preservation — C3

SessionPool.Run borrows a session from the bounded channel and, in a
deferred block running on every exit path, either sends it back (pool
still open at that moment) or closes it (pool closing).  Close flips
the closed flag once, waits out in-flight runs, and drains the channel
closing the queued sessions.  The state below counts the sessions on
the channel (`available`) and the sessions currently borrowed by
in-flight runs (`held`); the step relation has one constructor per
code transition touching those counts. -/

structure PoolRunState where
  available : Nat
  held : Nat
  closed : Bool
deriving DecidableEq, Repr

/-- Transitions of the pool state, each mapping to a line of pool.go:
`borrow` is the receive `session = <-p.sessions` in Run; `giveBack` is
the deferred `p.sessions <- session` when the closed flag is still
false; `destroy` is the deferred `session.Close()` when the flag was
set; `beginClose` is the successful CompareAndSwap in Close;
`drainClose` is one iteration of the drain loop in Close. -/
inductive PoolStep : PoolRunState → PoolRunState → Prop
  | borrow (a h : Nat) : PoolStep ⟨a + 1, h, false⟩ ⟨a, h + 1, false⟩
  | giveBack (a h : Nat) : PoolStep ⟨a, h + 1, false⟩ ⟨a + 1, h, false⟩
  | destroy (a h : Nat) : PoolStep ⟨a, h + 1, true⟩ ⟨a, h, true⟩
  | beginClose (a h : Nat) : PoolStep ⟨a, h, false⟩ ⟨a, h, true⟩
  | drainClose (a h : Nat) : PoolStep ⟨a + 1, h, true⟩ ⟨a, h, true⟩

/-- States reachable from the freshly constructed pool of size N: all
N sessions on the channel, none borrowed, flag down. -/
inductive PoolReachable (N : Nat) : PoolRunState → Prop
  | init : PoolReachable N ⟨N, 0, false⟩
  | step {s t : PoolRunState} : PoolReachable N s → PoolStep s t → PoolReachable N t

/-- C3: in every reachable state of an open pool of size N, the number
of sessions available on the channel plus the number borrowed by
in-flight runs equals N — every checkout is paired with a return while
the pool is open, so no session is lost.  (Once Close has begun,
sessions are destroyed rather than returned and the sum only
decreases.) -/
theorem claim_C3_pool_preserves_sessions (N : Nat) (s : PoolRunState)
    (hreach : PoolReachable N s) (hopen : s.closed = false) :
    s.available + s.held = N := by
  induction hreach with
  | init => rfl
  | step hr hstep ih =>
    cases hstep with
    | borrow a h =>
      have := ih rfl
      simp at this ⊢
      omega
    | giveBack a h =>
      have := ih rfl
      simp at this ⊢
      omega
    | destroy a h => simp at hopen
    | beginClose a h => simp at hopen
    | drainClose a h => simp at hopen

/-- Witness for C3: size-2 pool after one borrow. -/
theorem claim_C3_pool_preserves_sessions_witness :
    PoolReachable 2 ⟨1, 1, false⟩ ∧ (1 + 1 : Nat) = 2 :=
  ⟨PoolReachable.step PoolReachable.init (PoolStep.borrow 1 0),
    claim_C3_pool_preserves_sessions 2 ⟨1, 1, false⟩
      (PoolReachable.step PoolReachable.init (PoolStep.borrow 1 0)) rfl⟩

/-! ## Pool metrics — C4

After the borrowed session's Run returns, pool.go unconditionally does
`totalRuns.Add(1)`, `totalLatency.Add(int64(elapsed))` and, when the
run returned an error, `totalErrors.Add(1)`.  ResetStats stores zero in
all three counters. -/

/-- The three atomic counters of a pool. -/
structure PoolStats where
  totalRuns : Nat
  totalErrors : Nat
  totalLatency : Nat
deriving DecidableEq, Repr

/-- The metrics update performed by one SessionPool.Run call that
obtained a session, given the elapsed nanoseconds and whether the run
errored. -/
def recordRun (st : PoolStats) (elapsed : Nat) (isErr : Bool) : PoolStats :=
  { totalRuns := st.totalRuns + 1
    totalErrors := st.totalErrors + (if isErr then 1 else 0)
    totalLatency := st.totalLatency + elapsed }

/-- ResetStats from pool.go. -/
def resetStats : PoolStats :=
  { totalRuns := 0, totalErrors := 0, totalLatency := 0 }

/-- A sequence of completed runs folded over the counters. -/
def recordRuns (st : PoolStats) (runs : List (Nat × Bool)) : PoolStats :=
  runs.foldl (fun acc r => recordRun acc r.1 r.2) st

theorem recordRuns_nil (st : PoolStats) : recordRuns st [] = st := rfl

theorem recordRuns_cons (st : PoolStats) (r : Nat × Bool) (rs : List (Nat × Bool)) :
    recordRuns st (r :: rs) = recordRuns (recordRun st r.1 r.2) rs := rfl

/-- Counters only grow and errors stay bounded by runs along any
sequence of recorded runs. -/
theorem recordRuns_monotone (rs : List (Nat × Bool)) : ∀ st : PoolStats,
    st.totalRuns ≤ (recordRuns st rs).totalRuns ∧
    st.totalLatency ≤ (recordRuns st rs).totalLatency ∧
    (recordRuns st rs).totalErrors + st.totalRuns
      ≤ st.totalErrors + (recordRuns st rs).totalRuns := by
  induction rs with
  | nil => intro st; simp [recordRuns_nil]
  | cons r rs ih =>
    intro st
    obtain ⟨h1, h2, h3⟩ := ih (recordRun st r.1 r.2)
    rw [recordRuns_cons]
    have e1 : (recordRun st r.1 r.2).totalRuns = st.totalRuns + 1 := rfl
    have e2 : (recordRun st r.1 r.2).totalLatency = st.totalLatency + r.1 := rfl
    have e3 : (recordRun st r.1 r.2).totalErrors
        = st.totalErrors + (if r.2 = true then 1 else 0) := rfl
    have e4 : (if r.2 = true then 1 else 0) ≤ 1 := by cases r.2 <;> simp
    omega

/-- C4: one completed run increments total-runs by exactly one, adds
the elapsed nanoseconds to total-latency, and increments total-errors
exactly when the run errored; consequently, starting from ResetStats,
total-runs and total-latency are non-decreasing along any run sequence
and total-errors never exceeds total-runs. -/
theorem claim_C4_pool_metrics (st : PoolStats) (elapsed : Nat) (isErr : Bool)
    (rs : List (Nat × Bool)) :
    ((recordRun st elapsed isErr).totalRuns = st.totalRuns + 1) ∧
    ((recordRun st elapsed isErr).totalLatency = st.totalLatency + elapsed) ∧
    ((recordRun st elapsed isErr).totalErrors
        = st.totalErrors + (if isErr = true then 1 else 0)) ∧
    ((recordRuns st rs).totalRuns ≥ st.totalRuns) ∧
    ((recordRuns st rs).totalLatency ≥ st.totalLatency) ∧
    ((recordRuns resetStats rs).totalErrors ≤ (recordRuns resetStats rs).totalRuns) := by
  have hmono := recordRuns_monotone rs st
  have hreset := recordRuns_monotone rs resetStats
  refine ⟨rfl, rfl, rfl, hmono.1, hmono.2.1, ?_⟩
  have h1 := hreset.2.2
  have h2 : resetStats.totalRuns = 0 := rfl
  have h3 : resetStats.totalErrors = 0 := rfl
  omega

/-- Witness for C4 shape conformity (the theorem has no hypotheses; the
instance evaluates one failed run after reset). -/
theorem claim_C4_pool_metrics_example :
    (recordRuns resetStats [(5, true)]).totalRuns = 1 ∧
    (recordRuns resetStats [(5, true)]).totalErrors = 1 ∧
    (recordRuns resetStats [(5, true)]).totalLatency = 5 := by
  refine ⟨rfl, rfl, rfl⟩

/-! ## Provider fallback — C7 (provider.go) -/

/-- An execution provider request: name plus option map. -/
structure ExecutionProvider where
  name : String
  options : List (String × String)

/-- NewSessionWithProviderFallback from provider.go.  `available` is
the snapshot returned by GetAvailableProviders; `create` abstracts
NewSessionFromReader on the buffered model bytes, invoked with
`some provider` when a single requested provider is set on the options
and with `none` for the final CPU fallback (no explicit execution
provider).  Providers whose name is not in the snapshot are skipped;
the first successful creation returns with that provider's name; after
the list is exhausted the CPU fallback is used and the returned name is
"CPUExecutionProvider". -/
def sessionWithProviderFallback (available : List String)
    (create : Option ExecutionProvider → Except OnnxError Nat) :
    List ExecutionProvider → Except OnnxError (Nat × String)
  | [] =>
    match create none with
    | .error e => .error e
    | .ok session => .ok (session, "CPUExecutionProvider")
  | provider :: rest =>
    if available.contains provider.name then
      match create (some provider) with
      | .error _ => sessionWithProviderFallback available create rest
      | .ok session => .ok (session, provider.name)
    else
      sessionWithProviderFallback available create rest

/-- A provider whose name is absent from the snapshot is skipped. -/
theorem spf_skip (available : List String)
    (create : Option ExecutionProvider → Except OnnxError Nat)
    (p : ExecutionProvider) (rest : List ExecutionProvider)
    (hp : available.contains p.name = false) :
    sessionWithProviderFallback available create (p :: rest)
      = sessionWithProviderFallback available create rest := by
  conv_lhs => unfold sessionWithProviderFallback
  rw [hp]
  simp

/-- A provider whose session creation fails is skipped. -/
theorem spf_err (available : List String)
    (create : Option ExecutionProvider → Except OnnxError Nat)
    (p : ExecutionProvider) (rest : List ExecutionProvider) (e : OnnxError)
    (hp : create (some p) = .error e) :
    sessionWithProviderFallback available create (p :: rest)
      = sessionWithProviderFallback available create rest := by
  cases hc : available.contains p.name
  · conv_lhs => unfold sessionWithProviderFallback
    rw [hc]
    simp
  · conv_lhs => unfold sessionWithProviderFallback
    rw [hc, hp]
    simp

/-- C7: the fallback tries the requested providers in order skipping
the unavailable ones, returns the first successful provider with its
name, and otherwise creates the session with no explicit provider and
returns "CPUExecutionProvider".  In particular, with preference list
["NonExistentProvider"], a name absent from the snapshot, a session is
created by the CPU fallback and the returned name is
"CPUExecutionProvider". -/
theorem claim_C7_provider_fallback (available : List String)
    (create : Option ExecutionProvider → Except OnnxError Nat)
    (provider : ExecutionProvider) (rest providers : List ExecutionProvider)
    (session : Nat) (opts : List (String × String)) :
    (available.contains provider.name = false →
      sessionWithProviderFallback available create (provider :: rest)
        = sessionWithProviderFallback available create rest) ∧
    (available.contains provider.name = true → create (some provider) = .ok session →
      sessionWithProviderFallback available create (provider :: rest)
        = .ok (session, provider.name)) ∧
    ((∀ p ∈ providers, available.contains p.name = false ∨
        ∃ e, create (some p) = .error e) →
      sessionWithProviderFallback available create providers
        = sessionWithProviderFallback available create []) ∧
    (create none = .ok session →
      sessionWithProviderFallback available create []
        = .ok (session, "CPUExecutionProvider")) ∧
    (create none = .ok session → available.contains "NonExistentProvider" = false →
      sessionWithProviderFallback available create [⟨"NonExistentProvider", opts⟩]
        = .ok (session, "CPUExecutionProvider")) := by
  refine ⟨fun hskip => spf_skip available create provider rest hskip,
    fun hin hok => ?_, fun hall => ?_, fun hcpu => ?_, fun hcpu hna => ?_⟩
  · conv_lhs => unfold sessionWithProviderFallback
    rw [hin, hok]
    simp
  · induction providers with
    | nil => rfl
    | cons p ps ih =>
      have hp := hall p (List.mem_cons_self p ps)
      have hps : ∀ q ∈ ps, available.contains q.name = false ∨
          ∃ e, create (some q) = .error e :=
        fun q hq => hall q (List.mem_cons_of_mem p hq)
      rcases hp with hp | ⟨e, hp⟩
      · rw [spf_skip available create p ps hp]
        exact ih hps
      · rw [spf_err available create p ps e hp]
        exact ih hps
  · conv_lhs => unfold sessionWithProviderFallback
    rw [hcpu]
  · rw [spf_skip available create ⟨"NonExistentProvider", opts⟩ [] hna]
    conv_lhs => unfold sessionWithProviderFallback
    rw [hcpu]

/-- Witness for C7, scenario 6 of the spec: preference list
["NonExistentProvider"] against a CPU-only snapshot. -/
theorem claim_C7_provider_fallback_witness :
    sessionWithProviderFallback ["CPUExecutionProvider"]
        (fun req => match req with
          | none => .ok 11
          | some _ => .error (.message "no such provider"))
        [⟨"NonExistentProvider", []⟩]
      = .ok (11, "CPUExecutionProvider") :=
  (claim_C7_provider_fallback ["CPUExecutionProvider"]
      (fun req => match req with
        | none => .ok 11
        | some _ => .error (.message "no such provider"))
      ⟨"NonExistentProvider", []⟩ [] [] 11 []).2.2.2.2 rfl rfl

end Onnxer
